import Mathlib

/-!
Verification development for the NFT-gated media repository.

The repository has two cores:

* a caching retrieval proxy (`api/ipfsProxy`, here `handler`): an in-memory
  cache keyed by content identifier with a 5-minute TTL, fronting an IPFS
  gateway;
* an AEAD envelope pipeline: a producer (`encrypt.mjs`, here `produce`)
  that AES-GCM-encrypts a file and writes `iv || ciphertext` plus a
  key-material record `{key, iv}`, and a consumer
  (`decryptionFunction.js`, here `loadAndDisplayDecryptCall` / `consume`)
  that splits the blob and decrypts.

Bytes are modelled as `List Nat`, times as `Nat` milliseconds.  The AEAD
cipher itself is the platform's WebCrypto AES-GCM, which is not part of the
repository: theorems about encryption are parametric in the cipher
functions (`aenc`, `adec`) and take the cipher's contract at the relevant
point as a hypothesis; `toyEnc`/`toyDec` are a concrete stand-in cipher
used only to witness those hypotheses.
-/

/-- A cached response, as stored in the proxy's global `cache` object:
the fetched bytes, the upstream `Content-Type` header (absent when upstream
reported none), and the time the entry was populated. -/
structure CacheEntry where
  data : List Nat
  contentType : Option String
  timestamp : Nat
deriving DecidableEq, Repr

/-- The proxy's in-memory cache: a map from CID strings to entries. -/
def Cache : Type := String → Option CacheEntry

/-- The empty cache the serverless instance starts with (`let cache = {}`). -/
def emptyCache : Cache := fun _ => none

/-- `CACHE_TTL`: five minutes in milliseconds, from `api/ipfsProxy`. -/
def CACHE_TTL : Nat := 5 * 60 * 1000

/-- What the upstream IPFS gateway does for a given request: a successful
response with body and optional `Content-Type`, a non-success status, or a
thrown network-level error (the `catch` path). -/
inductive Upstream where
  | ok (body : List Nat) (contentType : Option String)
  | err (status : Nat)
  | exn (msg : String)

/-- A response body: raw bytes (`res.send(buffer)`) or a JSON error object
`{error: msg}` (`res.json({error: ...})`). -/
inductive Body where
  | bytes (b : List Nat)
  | jsonError (msg : String)
deriving DecidableEq, Repr

/-- An HTTP response: status, the headers explicitly set through
`res.setHeader`, and the body. -/
structure HttpResponse where
  status : Nat
  headers : List (String × String)
  body : Body
deriving DecidableEq, Repr

/-- Outcome of one proxy invocation: the response sent, the cache after the
call, and whether an upstream `fetch` was issued. -/
structure Outcome where
  response : HttpResponse
  cache : Cache
  upstreamCalled : Bool

/-- The freshness check of `api/ipfsProxy`:
`cache[cid] && (now - cache[cid].timestamp < CACHE_TTL)`.  Returns the
entry when present and fresh, and `none` otherwise. -/
def lookupFresh (cache : Cache) (cid : String) (now : Nat) : Option CacheEntry :=
  match cache cid with
  | some e => if now - e.timestamp < CACHE_TTL then some e else none
  | none => none

/-- The cache write of `api/ipfsProxy`:
`cache[cid] = {data, contentType, timestamp: now}`. -/
def cachePut (cache : Cache) (cid : String) (body : List Nat)
    (contentType : Option String) (now : Nat) : Cache :=
  fun k => if k = cid then some ⟨body, contentType, now⟩ else cache k

/-- JavaScript's `contentType || "application/octet-stream"`: both a missing
and an empty content type fall back to the default (empty strings are falsy
in JavaScript). -/
def contentTypeOrDefault : Option String → String
  | some s => if s = "" then "application/octet-stream" else s
  | none => "application/octet-stream"

/-- The two headers set on the 200 paths of `api/ipfsProxy`, in the order
the code sets them. -/
def corsAndType (contentType : Option String) : List (String × String) :=
  [("Access-Control-Allow-Origin", "*"),
   ("Content-Type", contentTypeOrDefault contentType)]

/-- Look a header up in a response (first match wins). -/
def getHeader (r : HttpResponse) (name : String) : Option String :=
  (r.headers.find? (fun p => decide (p.1 = name))).map (fun p => p.2)

/-- The retrieval-proxy handler of `api/ipfsProxy`, one request:

1. `!cid` (absent or empty) gives `400 {error:"Missing CID"}` with no
   header set and no upstream call;
2. a present, fresh cache entry gives a 200 with the cached bytes and
   content type, CORS header set, no upstream call;
3. otherwise upstream is fetched: non-`ok` propagates the upstream status
   with `{error:"Failed to fetch IPFS content"}` and leaves the cache
   alone; success stores the body in the cache under `cid` with timestamp
   `now` and answers 200; a thrown error gives `500 {error: msg}`. -/
def handler (cache : Cache) (cid : Option String) (now : Nat)
    (upstream : Upstream) : Outcome :=
  match cid with
  | none => ⟨⟨400, [], .jsonError "Missing CID"⟩, cache, false⟩
  | some c =>
    if c = "" then ⟨⟨400, [], .jsonError "Missing CID"⟩, cache, false⟩
    else
      match lookupFresh cache c now with
      | some entry =>
          ⟨⟨200, corsAndType entry.contentType, .bytes entry.data⟩, cache, false⟩
      | none =>
          match upstream with
          | .ok body ct =>
              ⟨⟨200, corsAndType ct, .bytes body⟩, cachePut cache c body ct now, true⟩
          | .err s =>
              ⟨⟨s, [], .jsonError "Failed to fetch IPFS content"⟩, cache, true⟩
          | .exn msg =>
              ⟨⟨500, [], .jsonError msg⟩, cache, true⟩

/-- One request to the proxy: query parameter, current time, and what
upstream would answer if asked. -/
structure Request where
  cid : Option String
  now : Nat
  upstream : Upstream

/-- Run the handler over a sequence of requests, threading the cache. -/
def runHandler (cache : Cache) (reqs : List Request) : Cache :=
  match reqs with
  | [] => cache
  | r :: rest => runHandler (handler cache r.cid r.now r.upstream).cache rest

/-! ## Envelope pipeline -/

/-- The key-material record written by `encrypt.mjs` as
`encryptionKey.json` and served by `api/getEncryptionKey`: raw key bytes
and the 12-byte IV. -/
structure KeyMaterial where
  key : List Nat
  iv : List Nat
deriving DecidableEq, Repr

/-- The producer `encryptVideo` of `encrypt.mjs`, with the cipher, the
generated key and the generated random IV as parameters (randomness is
external): the envelope blob is `iv ++ ciphertext`
(`ivAndCiphertext.set(iv, 0); ivAndCiphertext.set(ct, iv.byteLength)`),
and the key material is `{key: rawKey, iv}`. -/
def produce (aenc : List Nat → List Nat → List Nat → List Nat)
    (key iv plaintext : List Nat) : List Nat × KeyMaterial :=
  (iv ++ aenc key iv plaintext, ⟨key, iv⟩)

/-- The consumer's parse of the fetched blob, `decryptionFunction.js`:
`ivFromFile = encryptedBytes.slice(0, 12)` and
`ciphertext = encryptedBytes.slice(12)`. -/
def parseEnvelope (encryptedBytes : List Nat) : List Nat × List Nat :=
  (encryptedBytes.take 12, encryptedBytes.drop 12)

/-- The arguments of one `crypto.subtle.decrypt` invocation. -/
structure DecryptCall where
  key : List Nat
  iv : List Nat
  data : List Nat
deriving DecidableEq, Repr

/-- The decrypt invocation `loadAndDisplay` builds in
`decryptionFunction.js`: it slices `ivFromFile` and `ciphertext` from the
blob, reads `rawKey` and `ivFromKey` from the key material, and calls
`crypto.subtle.decrypt({name: "AES-GCM", iv: ivFromKey}, cryptoKey,
ciphertext)` — the IV passed to decrypt is `ivFromKey`; `ivFromFile` is
only logged. -/
def loadAndDisplayDecryptCall (encryptedBytes : List Nat)
    (keyData : KeyMaterial) : DecryptCall :=
  let ciphertext := encryptedBytes.drop 12
  let rawKey := keyData.key
  let ivFromKey := keyData.iv
  ⟨rawKey, ivFromKey, ciphertext⟩

/-- The consumer's decryption result: run the cipher's decrypt mode on the
invocation `loadAndDisplay` builds; `none` models the AEAD cipher throwing
on tag-verification failure, in which case no plaintext bytes exist. -/
def consume (adec : List Nat → List Nat → List Nat → Option (List Nat))
    (encryptedBytes : List Nat) (keyData : KeyMaterial) : Option (List Nat) :=
  let call := loadAndDisplayDecryptCall encryptedBytes keyData
  adec call.key call.iv call.data

/-- A stand-in cipher used only to witness cipher-contract hypotheses:
the "ciphertext" is the plaintext with the key appended as a tag. -/
def toyEnc (key _nonce p : List Nat) : List Nat := p ++ key

/-- Stand-in decrypt for `toyEnc`: checks the tag, rejects on mismatch. -/
def toyDec (key _nonce c : List Nat) : Option (List Nat) :=
  if c.drop (c.length - key.length) = key then
    some (c.take (c.length - key.length))
  else none

/-! ## Header-lookup helpers -/

/-- On a response whose headers are the two set by the 200 paths, the
`Content-Type` header is the (defaulted) content type. -/
theorem getHeader_contentType (st : Nat) (bd : Body) (ct : Option String) :
    getHeader ⟨st, corsAndType ct, bd⟩ "Content-Type"
      = some (contentTypeOrDefault ct) := by
  have h1 : (decide (("Access-Control-Allow-Origin" : String) = "Content-Type")) = false := by
    decide
  have h2 : (decide (("Content-Type" : String) = "Content-Type")) = true := by decide
  simp [getHeader, corsAndType, List.find?, h1, h2]

/-- On a response whose headers are the two set by the 200 paths, the
cross-origin header is `*`. -/
theorem getHeader_cors (st : Nat) (bd : Body) (ct : Option String) :
    getHeader ⟨st, corsAndType ct, bd⟩ "Access-Control-Allow-Origin"
      = some "*" := by
  have h1 : (decide (("Access-Control-Allow-Origin" : String)
      = "Access-Control-Allow-Origin")) = true := by decide
  simp [getHeader, corsAndType, List.find?, h1]

/-! ## C1: which nonce reaches the decrypt call -/

/-- C1 (counterexample): it is not true that the nonce passed to the AEAD
decrypt step is bytes 0..11 of the fetched envelope — on a 13-byte all-zero
envelope and key material whose nonce field is `[1]`, the decrypt call
receives `[1]`, not the envelope's first 12 bytes. -/
theorem decrypt_nonce_from_envelope_counterexample :
    ¬ ((loadAndDisplayDecryptCall (List.replicate 13 0) ⟨[], [1]⟩).iv
        = (List.replicate 13 0).take 12) := by
  decide

/-- C1 (amended): for every envelope byte sequence and key material record,
the decrypt call built by `loadAndDisplay` receives the key material's
nonce field (`ivFromKey`) as its nonce — not the envelope's embedded
nonce, which is only logged — together with the key material's key and the
envelope bytes past the first 12 as ciphertext. -/
theorem decrypt_uses_key_material_nonce (env : List Nat) (km : KeyMaterial) :
    (loadAndDisplayDecryptCall env km).iv = km.iv
    ∧ (loadAndDisplayDecryptCall env km).key = km.key
    ∧ (loadAndDisplayDecryptCall env km).data = env.drop 12 := by
  exact ⟨rfl, rfl, rfl⟩

/-! ## C8: envelope wire format -/

/-- C8: the producer's envelope is the single contiguous blob
`nonce ++ ciphertext` with the 12-byte nonce as a fixed-width leading
block and nothing else (total length `12 + |ciphertext|`), and the
consumer's parse recovers exactly the nonce as bytes 0..11 and the
ciphertext as the remainder. -/
theorem envelope_wire_format (aenc : List Nat → List Nat → List Nat → List Nat)
    (key iv p : List Nat) (hiv : iv.length = 12) :
    (produce aenc key iv p).1 = iv ++ aenc key iv p
    ∧ ((produce aenc key iv p).1).length = 12 + (aenc key iv p).length
    ∧ parseEnvelope (produce aenc key iv p).1 = (iv, aenc key iv p) := by
  refine ⟨rfl, ?_, ?_⟩
  · simp [produce, hiv]
  · have ht : (iv ++ aenc key iv p).take 12 = iv := by
      rw [← hiv]; exact List.take_left iv (aenc key iv p)
    have hd : (iv ++ aenc key iv p).drop 12 = aenc key iv p := by
      rw [← hiv]; exact List.drop_left iv (aenc key iv p)
    simp [parseEnvelope, produce, ht, hd]

/-- C8 witness: at a concrete 12-byte nonce and 3-byte plaintext under the
stand-in cipher, all three format facts evaluate as stated. -/
theorem envelope_wire_format_witness :
    ([0, 1, 2, 3, 4, 5, 6, 7, 8, 9, 10, 11] : List Nat).length = 12
    ∧ ((produce toyEnc [7, 7] [0, 1, 2, 3, 4, 5, 6, 7, 8, 9, 10, 11] [30, 31, 32]).1
        = [0, 1, 2, 3, 4, 5, 6, 7, 8, 9, 10, 11]
          ++ toyEnc [7, 7] [0, 1, 2, 3, 4, 5, 6, 7, 8, 9, 10, 11] [30, 31, 32]
      ∧ ((produce toyEnc [7, 7] [0, 1, 2, 3, 4, 5, 6, 7, 8, 9, 10, 11] [30, 31, 32]).1).length
        = 12 + (toyEnc [7, 7] [0, 1, 2, 3, 4, 5, 6, 7, 8, 9, 10, 11] [30, 31, 32]).length
      ∧ parseEnvelope (produce toyEnc [7, 7] [0, 1, 2, 3, 4, 5, 6, 7, 8, 9, 10, 11] [30, 31, 32]).1
        = ([0, 1, 2, 3, 4, 5, 6, 7, 8, 9, 10, 11],
           toyEnc [7, 7] [0, 1, 2, 3, 4, 5, 6, 7, 8, 9, 10, 11] [30, 31, 32])) :=
  ⟨by decide,
   envelope_wire_format toyEnc [7, 7] [0, 1, 2, 3, 4, 5, 6, 7, 8, 9, 10, 11]
     [30, 31, 32] (by decide)⟩

/-! ## C2: round-trip correctness -/

/-- C2: for every plaintext, key and 12-byte nonce, and every AEAD cipher
whose decrypt inverts its encrypt at that point (the WebCrypto AES-GCM
contract), consuming the produced envelope with the produced key material
returns exactly the original plaintext; moreover the nonce the consumer
decrypts with equals bytes 0..11 of the envelope. -/
theorem decode_encode_roundtrip
    (aenc : List Nat → List Nat → List Nat → List Nat)
    (adec : List Nat → List Nat → List Nat → Option (List Nat))
    (key iv p : List Nat) (hiv : iv.length = 12)
    (hcipher : adec key iv (aenc key iv p) = some p) :
    consume adec (produce aenc key iv p).1 (produce aenc key iv p).2 = some p
    ∧ (produce aenc key iv p).2.iv = ((produce aenc key iv p).1).take 12 := by
  have hd : (iv ++ aenc key iv p).drop 12 = aenc key iv p := by
    rw [← hiv]; exact List.drop_left iv (aenc key iv p)
  have ht : (iv ++ aenc key iv p).take 12 = iv := by
    rw [← hiv]; exact List.take_left iv (aenc key iv p)
  constructor
  · simp [consume, loadAndDisplayDecryptCall, produce, hd, hcipher]
  · simp [produce, ht]

/-- C2 witness: concrete round trip under the stand-in cipher with key
`[7]`, the nonce `0..11` and plaintext `[5, 6]`. -/
theorem decode_encode_roundtrip_witness :
    ([0, 1, 2, 3, 4, 5, 6, 7, 8, 9, 10, 11] : List Nat).length = 12
    ∧ toyDec [7] [0, 1, 2, 3, 4, 5, 6, 7, 8, 9, 10, 11]
        (toyEnc [7] [0, 1, 2, 3, 4, 5, 6, 7, 8, 9, 10, 11] [5, 6]) = some [5, 6]
    ∧ (consume toyDec (produce toyEnc [7] [0, 1, 2, 3, 4, 5, 6, 7, 8, 9, 10, 11] [5, 6]).1
          (produce toyEnc [7] [0, 1, 2, 3, 4, 5, 6, 7, 8, 9, 10, 11] [5, 6]).2 = some [5, 6]
        ∧ (produce toyEnc [7] [0, 1, 2, 3, 4, 5, 6, 7, 8, 9, 10, 11] [5, 6]).2.iv
          = ((produce toyEnc [7] [0, 1, 2, 3, 4, 5, 6, 7, 8, 9, 10, 11] [5, 6]).1).take 12) :=
  ⟨by decide, by decide,
   decode_encode_roundtrip toyEnc toyDec [7] [0, 1, 2, 3, 4, 5, 6, 7, 8, 9, 10, 11]
     [5, 6] (by decide) (by decide)⟩

/-! ## C3: authentication failure on wrong key -/

/-- C3: for distinct keys `k1 ≠ k2` and a 12-byte nonce, if the AEAD
cipher rejects the ciphertext under the wrong key at that point (tag
verification fails, the AES-GCM contract), then consuming the envelope
produced under `k1` with key material holding `k2` yields `none`: no
plaintext bytes are ever returned. -/
theorem wrong_key_rejected
    (aenc : List Nat → List Nat → List Nat → List Nat)
    (adec : List Nat → List Nat → List Nat → Option (List Nat))
    (k1 k2 iv p : List Nat) (hne : k1 ≠ k2) (hiv : iv.length = 12)
    (hauth : adec k2 iv (aenc k1 iv p) = none) :
    consume adec (produce aenc k1 iv p).1 ⟨k2, iv⟩ = none := by
  have hd : (iv ++ aenc k1 iv p).drop 12 = aenc k1 iv p := by
    rw [← hiv]; exact List.drop_left iv (aenc k1 iv p)
  simp [consume, loadAndDisplayDecryptCall, produce, hd, hauth]

/-- C3 witness: under the stand-in cipher, decrypting the envelope
produced under key `[1]` with key `[2]` fails tag verification and
`consume` yields `none`. -/
theorem wrong_key_rejected_witness :
    (([1] : List Nat) ≠ [2])
    ∧ ([0, 1, 2, 3, 4, 5, 6, 7, 8, 9, 10, 11] : List Nat).length = 12
    ∧ toyDec [2] [0, 1, 2, 3, 4, 5, 6, 7, 8, 9, 10, 11]
        (toyEnc [1] [0, 1, 2, 3, 4, 5, 6, 7, 8, 9, 10, 11] [5]) = none
    ∧ consume toyDec (produce toyEnc [1] [0, 1, 2, 3, 4, 5, 6, 7, 8, 9, 10, 11] [5]).1
        ⟨[2], [0, 1, 2, 3, 4, 5, 6, 7, 8, 9, 10, 11]⟩ = none :=
  ⟨by decide, by decide, by decide,
   wrong_key_rejected toyEnc toyDec [1] [2] [0, 1, 2, 3, 4, 5, 6, 7, 8, 9, 10, 11]
     [5] (by decide) (by decide) (by decide)⟩

/-! ## C6: missing CID -/

/-- C6: when the `cid` query parameter is absent or empty, the proxy
answers `400 {error:"Missing CID"}`, issues no upstream request, and
leaves the cache untouched. -/
theorem missing_cid_400 (cache : Cache) (cid : Option String) (now : Nat)
    (u : Upstream) (h : cid = none ∨ cid = some "") :
    handler cache cid now u
      = ⟨⟨400, [], .jsonError "Missing CID"⟩, cache, false⟩ := by
  rcases h with h | h <;> subst h <;> simp [handler]

/-- C6 witness: both shapes of missing CID, at concrete inputs. -/
theorem missing_cid_400_witness :
    ((none : Option String) = none ∨ (none : Option String) = some "")
    ∧ handler emptyCache none 0 (.err 404)
        = ⟨⟨400, [], .jsonError "Missing CID"⟩, emptyCache, false⟩
    ∧ handler emptyCache (some "") 0 (.ok [1] none)
        = ⟨⟨400, [], .jsonError "Missing CID"⟩, emptyCache, false⟩ :=
  ⟨Or.inl rfl,
   missing_cid_400 emptyCache none 0 (.err 404) (Or.inl rfl),
   missing_cid_400 emptyCache (some "") 0 (.ok [1] none) (Or.inr rfl)⟩

/-! ## C5: upstream failure propagated, cache untouched -/

/-- C5: when the CID is present, no fresh cache entry exists (so upstream
is actually consulted) and upstream answers a non-success status `s`, the
proxy answers that same status `s` with body
`{error:"Failed to fetch IPFS content"}` and the cache is left exactly as
it was. -/
theorem upstream_failure_propagated (cache : Cache) (c : String) (now s : Nat)
    (hc : c ≠ "") (hmiss : lookupFresh cache c now = none) :
    handler cache (some c) now (.err s)
      = ⟨⟨s, [], .jsonError "Failed to fetch IPFS content"⟩, cache, true⟩ := by
  simp [handler, if_neg hc, hmiss]

/-- C5 witness: a 404 from upstream for CID `"Qm"` on the empty cache is
answered with status 404 and the cache stays empty. -/
theorem upstream_failure_propagated_witness :
    ("Qm" ≠ "")
    ∧ lookupFresh emptyCache "Qm" 50 = none
    ∧ handler emptyCache (some "Qm") 50 (.err 404)
        = ⟨⟨404, [], .jsonError "Failed to fetch IPFS content"⟩, emptyCache, true⟩ :=
  ⟨by decide, rfl,
   upstream_failure_propagated emptyCache "Qm" 50 404 (by decide) rfl⟩

/-! ## C4: second request within the TTL is a cache hit -/

/-- C4: a first request for CID `c` at time `t1` that misses the cache and
fetches bytes `b` successfully, followed (not concurrently: the second
call starts from the first call's cache) by a second request for `c` at
`t2` with `t2 - t1 < CACHE_TTL`, makes the second request a cache hit: no
upstream call, status 200, the cached bytes `b` as body, and the cached
content type (defaulted) as `Content-Type`. -/
theorem cache_hit_within_ttl (cache : Cache) (c : String) (t1 t2 : Nat)
    (b : List Nat) (ct : Option String) (u2 : Upstream)
    (hc : c ≠ "") (hmiss : lookupFresh cache c t1 = none)
    (ht : t2 - t1 < CACHE_TTL) :
    (handler (handler cache (some c) t1 (.ok b ct)).cache (some c) t2 u2).upstreamCalled
        = false
    ∧ (handler (handler cache (some c) t1 (.ok b ct)).cache (some c) t2 u2).response.status
        = 200
    ∧ (handler (handler cache (some c) t1 (.ok b ct)).cache (some c) t2 u2).response.body
        = .bytes b
    ∧ getHeader (handler (handler cache (some c) t1 (.ok b ct)).cache (some c) t2 u2).response
        "Content-Type" = some (contentTypeOrDefault ct) := by
  have h1 : (handler cache (some c) t1 (.ok b ct)).cache = cachePut cache c b ct t1 := by
    simp [handler, if_neg hc, hmiss]
  have h2 : lookupFresh (cachePut cache c b ct t1) c t2 = some ⟨b, ct, t1⟩ := by
    simp [lookupFresh, cachePut, ht]
  rw [h1]
  have h3 : handler (cachePut cache c b ct t1) (some c) t2 u2
      = ⟨⟨200, corsAndType ct, .bytes b⟩, cachePut cache c b ct t1, false⟩ := by
    simp [handler, if_neg hc, h2]
  rw [h3]
  exact ⟨rfl, rfl, rfl, getHeader_contentType 200 (.bytes b) ct⟩

/-- C4 witness: CID `"Qm"` fetched at time 0 and again at time 1000
(within the 300000 ms TTL): the second call issues no upstream request and
returns the cached bytes and content type. -/
theorem cache_hit_within_ttl_witness :
    ("Qm" ≠ "")
    ∧ lookupFresh emptyCache "Qm" 0 = none
    ∧ 1000 - 0 < CACHE_TTL
    ∧ ((handler (handler emptyCache (some "Qm") 0 (.ok [9, 8] (some "video/mp4"))).cache
          (some "Qm") 1000 (.err 500)).upstreamCalled = false
      ∧ (handler (handler emptyCache (some "Qm") 0 (.ok [9, 8] (some "video/mp4"))).cache
          (some "Qm") 1000 (.err 500)).response.status = 200
      ∧ (handler (handler emptyCache (some "Qm") 0 (.ok [9, 8] (some "video/mp4"))).cache
          (some "Qm") 1000 (.err 500)).response.body = .bytes [9, 8]
      ∧ getHeader (handler (handler emptyCache (some "Qm") 0 (.ok [9, 8] (some "video/mp4"))).cache
          (some "Qm") 1000 (.err 500)).response "Content-Type"
          = some (contentTypeOrDefault (some "video/mp4"))) :=
  ⟨by decide, rfl, by decide,
   cache_hit_within_ttl emptyCache "Qm" 0 1000 [9, 8] (some "video/mp4") (.err 500)
     (by decide) rfl (by decide)⟩

/-! ## C7: which responses carry the cross-origin header -/

/-- C7 (counterexample): not every response carries the open cross-origin
header — the 400 missing-CID response sets no headers at all, so
`Access-Control-Allow-Origin` is absent from it. -/
theorem cors_everywhere_counterexample :
    getHeader (handler emptyCache none 0 (.err 404)).response
      "Access-Control-Allow-Origin" = none := by
  rfl

/-- C7 (amended): only the 200 responses carry the open cross-origin
header: both success paths — cache hit and fresh fetch — set
`Access-Control-Allow-Origin: *`, while any response whose status is not
200 (the 400 missing-CID response, the propagated upstream failure, the
500 response) sets no headers and in particular carries no cross-origin
header. -/
theorem cors_only_on_success (cache : Cache) (c : String) (now : Nat)
    (b : List Nat) (ct : Option String) (u : Upstream) (e : CacheEntry)
    (hc : c ≠ "") :
    (lookupFresh cache c now = some e →
      getHeader (handler cache (some c) now u).response
        "Access-Control-Allow-Origin" = some "*")
    ∧ (lookupFresh cache c now = none →
      getHeader (handler cache (some c) now (.ok b ct)).response
        "Access-Control-Allow-Origin" = some "*")
    ∧ (∀ cid2 : Option String, ∀ u2 : Upstream,
      (handler cache cid2 now u2).response.status ≠ 200 →
      getHeader (handler cache cid2 now u2).response
        "Access-Control-Allow-Origin" = none) := by
  refine ⟨fun hhit => ?_, fun hmiss => ?_, fun cid2 u2 _hst => ?_⟩
  · have h : handler cache (some c) now u
        = ⟨⟨200, corsAndType e.contentType, .bytes e.data⟩, cache, false⟩ := by
      simp [handler, if_neg hc, hhit]
    rw [h]
    exact getHeader_cors 200 (.bytes e.data) e.contentType
  · have h : handler cache (some c) now (.ok b ct)
        = ⟨⟨200, corsAndType ct, .bytes b⟩, cachePut cache c b ct now, true⟩ := by
      simp [handler, if_neg hc, hmiss]
    rw [h]
    exact getHeader_cors 200 (.bytes b) ct
  · match cid2 with
    | none => rfl
    | some c2 =>
      by_cases hc2 : c2 = ""
      · simp [handler, hc2, getHeader]
      · rcases hl : lookupFresh cache c2 now with _ | e2
        · match u2 with
          | .ok b2 ct2 =>
            exfalso
            apply _hst
            simp [handler, if_neg hc2, hl]
          | .err s2 => simp [handler, if_neg hc2, hl, getHeader]
          | .exn m2 => simp [handler, if_neg hc2, hl, getHeader]
        · exfalso
          apply _hst
          simp [handler, if_neg hc2, hl]

/-- C7 witness: on a cache holding a fresh entry for `"Qm"`, the hit
response and a fresh-fetch response for `"Qm2"` carry the header, while a
404 propagated from upstream for `"Qm2"` does not. -/
theorem cors_only_on_success_witness :
    ("Qm" ≠ "")
    ∧ lookupFresh (cachePut emptyCache "Qm" [3] none 0) "Qm" 10 = some ⟨[3], none, 0⟩
    ∧ getHeader (handler (cachePut emptyCache "Qm" [3] none 0) (some "Qm") 10
        (.err 404)).response "Access-Control-Allow-Origin" = some "*"
    ∧ getHeader (handler emptyCache (some "Qm2") 10 (.err 404)).response
        "Access-Control-Allow-Origin" = none :=
  ⟨by decide, by decide,
   (cors_only_on_success (cachePut emptyCache "Qm" [3] none 0) "Qm" 10 [] none
      (.err 404) ⟨[3], none, 0⟩ (by decide)).1 (by decide),
   (cors_only_on_success emptyCache "Qm" 10 [] none (.err 404) ⟨[], none, 0⟩
      (by decide)).2.2 (some "Qm2") (.err 404) (by decide)⟩

/-! ## C9: the cache never deletes -/

/-- Helper: one handler call never removes a cache key. -/
theorem handler_preserves_keys (cache : Cache) (cid : Option String)
    (now : Nat) (u : Upstream) (k : String) (h : cache k ≠ none) :
    (handler cache cid now u).cache k ≠ none := by
  match cid with
  | none => exact h
  | some c =>
    by_cases hc : c = ""
    · simpa [handler, hc] using h
    · rcases hl : lookupFresh cache c now with _ | e
      · match u with
        | .ok b ct =>
          by_cases hk : k = c
          · simp [handler, if_neg hc, hl, cachePut, hk]
          · simpa [handler, if_neg hc, hl, cachePut, hk] using h
        | .err s => simpa [handler, if_neg hc, hl] using h
        | .exn m => simpa [handler, if_neg hc, hl] using h
      · simpa [handler, if_neg hc, hl] using h

/-- C9: across any sequence of proxy requests, a key present in the cache
stays present: no request ever deletes an entry (a later successful fetch
for the same key may overwrite it, but the key never disappears). -/
theorem cache_never_deletes (reqs : List Request) (cache : Cache)
    (k : String) (h : cache k ≠ none) :
    runHandler cache reqs k ≠ none := by
  induction reqs generalizing cache with
  | nil => exact h
  | cons r rest ih =>
    exact ih _ (handler_preserves_keys cache r.cid r.now r.upstream k h)

/-- C9 witness: the key `"Qm"`, present initially, is still present after
a stale re-fetch, an unrelated fetch and an upstream failure. -/
theorem cache_never_deletes_witness :
    (cachePut emptyCache "Qm" [3] none 0 "Qm" ≠ none)
    ∧ runHandler (cachePut emptyCache "Qm" [3] none 0)
        [⟨some "Qm", 400000, .ok [4] none⟩,
         ⟨some "Other", 400001, .ok [5] none⟩,
         ⟨some "Qm", 900000, .err 500⟩] "Qm" ≠ none :=
  ⟨by decide,
   cache_never_deletes
     [⟨some "Qm", 400000, .ok [4] none⟩,
      ⟨some "Other", 400001, .ok [5] none⟩,
      ⟨some "Qm", 900000, .err 500⟩]
     (cachePut emptyCache "Qm" [3] none 0) "Qm" (by decide)⟩

/-! ## C10: default content type on 200 responses -/

/-- C10: on both 200 paths — serving a fresh cache entry whose stored
content type is absent, and serving a fresh upstream fetch whose reported
content type is absent — the response's `Content-Type` header is exactly
`application/octet-stream`. -/
theorem content_type_default (cache : Cache) (c : String) (now : Nat)
    (u : Upstream) (e : CacheEntry) (b : List Nat) (hc : c ≠ "") :
    (lookupFresh cache c now = some e → e.contentType = none →
      getHeader (handler cache (some c) now u).response "Content-Type"
        = some "application/octet-stream")
    ∧ (lookupFresh cache c now = none →
      getHeader (handler cache (some c) now (.ok b none)).response "Content-Type"
        = some "application/octet-stream") := by
  constructor
  · intro hhit hct
    have h : handler cache (some c) now u
        = ⟨⟨200, corsAndType e.contentType, .bytes e.data⟩, cache, false⟩ := by
      simp [handler, if_neg hc, hhit]
    rw [h, getHeader_contentType, hct]
    rfl
  · intro hmiss
    have h : handler cache (some c) now (.ok b none)
        = ⟨⟨200, corsAndType none, .bytes b⟩, cachePut cache c b none now, true⟩ := by
      simp [handler, if_neg hc, hmiss]
    rw [h, getHeader_contentType]
    rfl

/-- C10 witness: a cache hit on an entry with no stored content type, and
a fresh fetch whose upstream reports no content type, both answer with
`Content-Type: application/octet-stream`. -/
theorem content_type_default_witness :
    ("Qm" ≠ "")
    ∧ lookupFresh (cachePut emptyCache "Qm" [3] none 0) "Qm" 10 = some ⟨[3], none, 0⟩
    ∧ getHeader (handler (cachePut emptyCache "Qm" [3] none 0) (some "Qm") 10
        (.err 404)).response "Content-Type" = some "application/octet-stream"
    ∧ lookupFresh emptyCache "Qm" 10 = none
    ∧ getHeader (handler emptyCache (some "Qm") 10 (.ok [6] none)).response
        "Content-Type" = some "application/octet-stream" :=
  ⟨by decide, by decide,
   (content_type_default (cachePut emptyCache "Qm" [3] none 0) "Qm" 10 (.err 404)
      ⟨[3], none, 0⟩ [] (by decide)).1 (by decide) rfl,
   rfl,
   (content_type_default emptyCache "Qm" 10 (.err 404) ⟨[], none, 0⟩ [6]
      (by decide)).2 rfl⟩
